import Mathlib

/-
  Verification of the persistent-memory allocation / pointer core of
  libpmemobj-cpp (make_persistent / delete_persistent for arrays,
  make_persistent_atomic / delete_persistent_atomic, tagged_ptr_impl,
  condition_variable::wait_until_impl, shared_mutex::unlock_shared).

  The C++ sources are shallowly embedded: each operation becomes a pure
  Lean function over the inputs that determine its behaviour (the current
  transaction stage, the collaborating allocator's reply, errno, the
  element constructors' success/failure), returning its outcome together
  with a trace of the calls it makes into its collaborators.
-/

namespace PmemObjCpp

/-- Transaction stages of the libpmemobj stage machine (tx_base.h), as read
by `pmemobj_tx_stage()` in make_persistent / delete_persistent. -/
inductive TxStage
  | TX_STAGE_NONE
  | TX_STAGE_WORK
  | TX_STAGE_ONCOMMIT
  | TX_STAGE_ONABORT
  | TX_STAGE_FINALLY
  deriving DecidableEq, Repr

/-- Linux errno value reported by the allocator on resource exhaustion. -/
def ENOMEM : Nat := 12

/-- Linux errno value returned by `pmemobj_cond_timedwait` on deadline expiry. -/
def ETIMEDOUT : Nat := 110

/-- Observable calls an operation makes into its collaborators (the pool
allocator, the elements' constructors/destructors, the native lock). -/
inductive Event
  | txAllocCall          -- pmemobj_tx_xalloc
  | ctorCall (i : Nat)   -- detail::create<I>(data + i), element i
  | dtorCall (i : Nat)   -- detail::destroy<I>(data[i]), element i
  | txFreeCall           -- pmemobj_tx_free
  | atomicAllocCall      -- pmemobj_xalloc
  | atomicFreeCall       -- pmemobj_free
  | rwlockUnlockCall     -- pmemobj_rwlock_unlock
  deriving DecidableEq, Repr

/-- Exceptions thrown by the embedded operations (pexceptions.hpp plus
std::bad_alloc, plus propagation of an element constructor's exception). -/
inductive PmemErr
  | transaction_scope_error
  | transaction_out_of_memory
  | transaction_alloc_error
  | transaction_free_error
  | bad_alloc
  | lock_error
  | ctorException (i : Nat)  -- the exception thrown by element i's constructor
  deriving DecidableEq, Repr

/-- The construction loop of make_persistent:
`for (i = 0; i < N; ++i) detail::create<I>(data + i);`
run over the remaining indices. `ctorOk i` tells whether element i's
constructor returns normally; when it throws, the loop stops and the
exception propagates with no cleanup (comment in the source: "we don't
perform any cleanup - i.e. we don't call destructors"). -/
def ctorLoop (ctorOk : Nat → Bool) : List Nat → Except PmemErr Unit × List Event
  | [] => (.ok (), [])
  | i :: rest =>
    if ctorOk i then
      let r := ctorLoop ctorOk rest
      (r.1, Event.ctorCall i :: r.2)
    else
      (.error (.ctorException i), [Event.ctorCall i])

/-- Embedding of `pmem::obj::make_persistent<T[]>(N, flag)`
(src/unnamed/part_001, lines 49-98; the fixed-size overload at lines
116-158 is the same code with N a compile-time constant).
Inputs that the surrounding world determines: the current stage
(`pmemobj_tx_stage()`), the allocator's reply (`allocRes`: `some addr`
for a non-null persistent_ptr, `none` for a null one), the errno value
the allocator left behind, and each element constructor's behaviour.
The result is the returned pointer or the thrown exception, paired with
the trace of collaborator calls. -/
def make_persistent (stage : TxStage) (N : Nat) (allocRes : Option Nat)
    (errno : Nat) (ctorOk : Nat → Bool) :
    Except PmemErr (Option Nat) × List Event :=
  if stage ≠ TxStage.TX_STAGE_WORK then
    (.error .transaction_scope_error, [])
  else
    match allocRes with
    | none =>
      if errno = ENOMEM then
        (.error .transaction_out_of_memory, [Event.txAllocCall])
      else
        (.error .transaction_alloc_error, [Event.txAllocCall])
    | some addr =>
      let r := ctorLoop ctorOk (List.range N)
      match r.1 with
      | .error e => (.error e, Event.txAllocCall :: r.2)
      | .ok _ => (.ok (some addr), Event.txAllocCall :: r.2)

/-- Embedding of `pmem::obj::delete_persistent<T[]>(ptr, N)`
(src/unnamed/part_001, lines 178-205; the fixed-size overload at lines
224-252 is the same code). `ptr` is `none` for a null persistent_ptr;
`freeOk` tells whether `pmemobj_tx_free` returned 0. The destructor loop
is `for (i = 0; i < N; ++i) detail::destroy<I>(data[N - 1 - i]);`. -/
def delete_persistent (stage : TxStage) (ptr : Option Nat) (N : Nat)
    (freeOk : Bool) : Except PmemErr Unit × List Event :=
  if stage ≠ TxStage.TX_STAGE_WORK then
    (.error .transaction_scope_error, [])
  else
    match ptr with
    | none => (.ok (), [])
    | some _ =>
      let dtors := (List.range N).map (fun i => Event.dtorCall (N - 1 - i))
      if freeOk then
        (.ok (), dtors ++ [Event.txFreeCall])
      else
        (.error .transaction_free_error, dtors ++ [Event.txFreeCall])

/-- Embedding of `pmem::obj::make_persistent_atomic<T>`
(src/include/libpmemobj++/make_persistent_atomic.hpp, lines 49-64).
The source performs no transaction-stage check: it calls
`pmemobj_xalloc` unconditionally and throws `std::bad_alloc` exactly
when that call returns nonzero. The ambient stage is passed in only to
record that the behaviour does not depend on it. -/
def make_persistent_atomic (stage : TxStage) (ret : Int) :
    Except PmemErr Unit × List Event :=
  ((if ret ≠ 0 then .error .bad_alloc else .ok ()), [Event.atomicAllocCall])

/-- Embedding of `pmem::obj::delete_persistent_atomic<T>`
(src/include/libpmemobj++/make_persistent_atomic.hpp, lines 104-114).
The function is noexcept, returns immediately on a null pointer, and for
a non-null pointer only calls `pmemobj_free` (source comment: "we CAN'T
call the destructor"). -/
def delete_persistent_atomic (ptr : Option Nat) : Unit × List Event :=
  match ptr with
  | none => ((), [])
  | some _ => ((), [Event.atomicFreeCall])

/-- Modelled from the spec: the member `self_relative_ptr<void> ptr` of
tagged_ptr_impl. The relative-offset pointer class itself
(experimental/self_relative_ptr.hpp) is not among the sources; per the
spec's Relative Pointer contract (resolution returns the stored target
address; null sentinel) it is abstracted by the raw address the slot
resolves to, with 0 encoding null. `to_void_pointer`/`to_byte_pointer`
both return this address, and construction from a raw pointer stores it
unchanged. tagged_ptr_impl only observes the member through these. -/
structure tagged_ptr where
  ptr : Nat
  deriving DecidableEq, Repr

namespace tagged_ptr

/-- The discriminator bit constant of tagged_ptr_impl (src/unnamed/part_002,
line 135). -/
def IS_TAGGED : Nat := 1

/-- Embedding of `tagged_ptr_impl::add_tag` (src/unnamed/part_002,
lines 136-142): sets the low bit of the address. -/
def add_tag (a : Nat) : Nat := a ||| IS_TAGGED

/-- Embedding of `tagged_ptr_impl::remove_tag` (src/unnamed/part_002,
lines 144-150): `ptr & ~uintptr_t(1)` clears the low bit; on Nat the
same operation is subtracting the low bit, `a - a % 2`. -/
def remove_tag (a : Nat) : Nat := a - a % 2

/-- Embedding of the default constructor and of construction/assignment
from nullptr (src/unnamed/part_002, lines 20, 23-26, 41-47): the stored
relative pointer is null. -/
def fromNull : tagged_ptr := ⟨0⟩

/-- Embedding of construction/assignment from `persistent_ptr<P1>`
(src/unnamed/part_002, lines 28-32 and 48-55): stores
`add_tag(rhs.get())`, where `a` is the target address `rhs.get()`
(0 when the persistent_ptr is null). -/
def fromP1 (a : Nat) : tagged_ptr := ⟨add_tag a⟩

/-- Embedding of construction/assignment from `persistent_ptr<P2>`
(src/unnamed/part_002, lines 34-37 and 56-63): stores `rhs.get()`
untagged. -/
def fromP2 (a : Nat) : tagged_ptr := ⟨a⟩

/-- Embedding of `tagged_ptr_impl::is_tagged` (src/unnamed/part_002,
lines 152-157): tests the low bit of `ptr.to_void_pointer()`. -/
def is_tagged (t : tagged_ptr) : Bool := t.ptr &&& IS_TAGGED != 0

/-- Embedding of `is<P1>()` (src/unnamed/part_002, lines 94-99). -/
def isP1 (t : tagged_ptr) : Bool := t.is_tagged

/-- Embedding of `is<P2>()` (src/unnamed/part_002, lines 101-106). -/
def isP2 (t : tagged_ptr) : Bool := !t.is_tagged

/-- Embedding of `get<P1>()` (src/unnamed/part_002, lines 108-114):
returns `remove_tag(ptr.to_void_pointer())`. -/
def getP1 (t : tagged_ptr) : Nat := remove_tag t.ptr

/-- Embedding of `get<P2>()` (src/unnamed/part_002, lines 116-122):
returns `ptr.to_void_pointer()` unchanged. -/
def getP2 (t : tagged_ptr) : Nat := t.ptr

/-- Embedding of `operator==` on two tagged pointers (src/unnamed/part_002,
lines 65-69): compares `ptr.to_byte_pointer()` of both sides. -/
def beq (x y : tagged_ptr) : Bool := x.ptr == y.ptr

/-- Embedding of `explicit operator bool` (src/unnamed/part_002,
lines 129-132): `remove_tag(ptr.to_void_pointer()) != nullptr`. -/
def toBool (t : tagged_ptr) : Bool := remove_tag t.ptr != 0

end tagged_ptr

/-- Status values of a timed condition-variable wait (std::cv_status). -/
inductive cv_status
  | no_timeout
  | timeout
  deriving DecidableEq, Repr

/-- Embedding of `condition_variable::wait_until_impl`
(src/include/libpmemobj++/condition_variable.hpp, lines 499-526).
Time points on both clocks are integers; `theirNow` is `Clock::now()` on
the caller's clock, `myNow` is `clock_type::now()` on the primitive's
native clock, taken at call time. The conversion in the source is
`delta = abs_timeout - their_now; my_rel = my_now + delta`, and `my_rel`
(through `timepoint_to_timespec`, a monotone re-encoding modelled as the
identity) is what `pmemobj_cond_timedwait` receives; `ret` is that
call's return status. The second component of the result records the
deadline handed to the native wait. -/
def wait_until_impl (theirNow myNow absTimeout : Int) (ret : Nat) :
    Except PmemErr cv_status × List Int :=
  let delta := absTimeout - theirNow
  let my_rel := myNow + delta
  ((if ret = 0 then .ok .no_timeout
    else if ret = ETIMEDOUT then .ok .timeout
    else .error .lock_error), [my_rel])

namespace shared_mutex

/-- Embedding of `shared_mutex::unlock`
(src/include/libpmemobj++/shared_mutex.hpp, lines 173-182): calls
`pmemobj_rwlock_unlock` once and throws lock_error exactly when that
call returns nonzero; `ret` is the native return status. -/
def unlock (ret : Nat) : Except PmemErr Unit × List Event :=
  ((if ret ≠ 0 then .error .lock_error else .ok ()), [Event.rwlockUnlockCall])

/-- Embedding of `shared_mutex::unlock_shared`
(src/include/libpmemobj++/shared_mutex.hpp, lines 190-194): the body is
exactly `this->unlock();`. -/
def unlock_shared (ret : Nat) : Except PmemErr Unit × List Event :=
  unlock ret

end shared_mutex

/-! Helper lemmas. -/

/-- When every constructor on the list succeeds, the construction loop
returns normally after invoking each constructor in list order. -/
theorem ctorLoop_ok (ctorOk : Nat → Bool) (l : List Nat)
    (h : ∀ j ∈ l, ctorOk j = true) :
    ctorLoop ctorOk l = (.ok (), l.map Event.ctorCall) := by
  induction l with
  | nil => rfl
  | cons i rest ih =>
    have hi : ctorOk i = true := h i (List.mem_cons_self i rest)
    have hrest := ih (fun j hj => h j (List.mem_cons_of_mem i hj))
    simp [ctorLoop, hi, hrest]

/-- When the constructors succeed along a prefix and the next one throws,
the construction loop stops there: it invokes the constructors of the
prefix in order, then the failing one, and propagates that exception. -/
theorem ctorLoop_fail (ctorOk : Nat → Bool) (l1 l2 : List Nat) (i : Nat)
    (h1 : ∀ j ∈ l1, ctorOk j = true) (hi : ctorOk i = false) :
    ctorLoop ctorOk (l1 ++ i :: l2) =
      (.error (.ctorException i), (l1 ++ [i]).map Event.ctorCall) := by
  induction l1 with
  | nil => simp [ctorLoop, hi]
  | cons j rest ih =>
    have hj : ctorOk j = true := h1 j (List.mem_cons_self j rest)
    have hrest := ih (fun x hx => h1 x (List.mem_cons_of_mem j hx))
    simp [ctorLoop, hj, hrest]

/-- Splitting List.range N at an interior index i. -/
theorem range_split (i N : Nat) (h : i < N) :
    List.range N =
      List.range i ++ i :: (List.range (N - (i + 1))).map (fun x => (i + 1) + x) := by
  have hN : N = (i + 1) + (N - (i + 1)) := by omega
  calc List.range N
      = List.range ((i + 1) + (N - (i + 1))) := by rw [← hN]
    _ = List.range (i + 1) ++ (List.range (N - (i + 1))).map (fun x => (i + 1) + x) :=
        List.range_add _ _
    _ = (List.range i ++ [i]) ++ (List.range (N - (i + 1))).map (fun x => (i + 1) + x) := by
        rw [List.range_succ]
    _ = List.range i ++ i :: (List.range (N - (i + 1))).map (fun x => (i + 1) + x) := by
        simp

/-- Mapping i to N - 1 - i over List.range N lists the indices in
descending order N-1, ..., 0. -/
theorem range_rev_map (N : Nat) :
    (List.range N).map (fun i => N - 1 - i) = (List.range N).reverse := by
  apply List.ext_getElem
  · simp
  · intro k h1 h2
    simp only [List.getElem_map, List.getElem_range, List.getElem_reverse,
      List.length_range]

/-- Setting the low bit of an even number adds one. -/
theorem lor_one_of_even {a : Nat} (h : a % 2 = 0) : a ||| 1 = a + 1 := by
  obtain ⟨k, rfl⟩ : ∃ k, a = 2 * k := ⟨a / 2, by omega⟩
  have h1 : 2 * k = Nat.bit false k := by simp [Nat.bit_val]
  have h2 : (1 : Nat) = Nat.bit true 0 := by simp [Nat.bit_val]
  rw [h1, h2, Nat.lor_bit]
  simp [Nat.bit_val]

/-! Claim theorems. -/

/-- C1: in every transaction stage other than WORK, both make_persistent and
delete_persistent throw transaction_scope_error and make no allocator,
constructor or destructor call (the trace is empty); delete_persistent does so
even for a null pointer, since the stage check precedes the null check. -/
theorem tx_ops_scope_gated (stage : TxStage) (h : stage ≠ TxStage.TX_STAGE_WORK)
    (N : Nat) (allocRes : Option Nat) (errno : Nat) (ctorOk : Nat → Bool)
    (ptr : Option Nat) (freeOk : Bool) :
    make_persistent stage N allocRes errno ctorOk =
      (.error .transaction_scope_error, []) ∧
    delete_persistent stage ptr N freeOk =
      (.error .transaction_scope_error, []) := by
  constructor <;> simp [make_persistent, delete_persistent, h]

/-- C1 witness: stage NONE with a null pointer argument to delete_persistent. -/
theorem tx_ops_scope_gated_witness :
    make_persistent TxStage.TX_STAGE_NONE 3 (some 5) 0 (fun _ => true) =
      (.error .transaction_scope_error, []) ∧
    delete_persistent TxStage.TX_STAGE_NONE none 3 true =
      (.error .transaction_scope_error, []) :=
  tx_ops_scope_gated TxStage.TX_STAGE_NONE (by decide) 3 (some 5) 0
    (fun _ => true) none true

/-- C2: in stage WORK, delete_persistent on a non-null pointer to N elements
runs the destructors in exactly reverse order N-1, ..., 0, then calls the
transactional free, and throws transaction_free_error exactly when that free
reports failure; on a null pointer it returns normally with no destructor and
no allocator call. -/
theorem delete_persistent_work_semantics (N addr : Nat) (freeOk : Bool) :
    delete_persistent TxStage.TX_STAGE_WORK (some addr) N freeOk =
      ((if freeOk then .ok () else .error .transaction_free_error),
        ((List.range N).reverse.map Event.dtorCall) ++ [Event.txFreeCall]) ∧
    delete_persistent TxStage.TX_STAGE_WORK none N freeOk = (.ok (), []) := by
  have hmap : (List.range N).map (fun i => Event.dtorCall (N - 1 - i)) =
      (List.range N).reverse.map Event.dtorCall := by
    rw [← range_rev_map, List.map_map]
    rfl
  constructor
  · cases freeOk <;> simp [delete_persistent, hmap]
  · simp [delete_persistent]

/-- C3: in stage WORK with a successful allocation, make_persistent runs the
element constructors left-to-right over 0..N-1; when the constructor of
element i throws, the exception propagates to the caller and make_persistent
performs no destructor call and no free of the allocation. -/
theorem make_persistent_ctor_semantics (N a errno : Nat) (ctorOk : Nat → Bool) :
    ((∀ j, j < N → ctorOk j = true) →
      make_persistent TxStage.TX_STAGE_WORK N (some a) errno ctorOk =
        (.ok (some a), Event.txAllocCall :: (List.range N).map Event.ctorCall)) ∧
    (∀ i, i < N → (∀ j, j < i → ctorOk j = true) → ctorOk i = false →
      make_persistent TxStage.TX_STAGE_WORK N (some a) errno ctorOk =
        (.error (.ctorException i),
          Event.txAllocCall :: (List.range (i + 1)).map Event.ctorCall) ∧
      (∀ k, Event.dtorCall k ∉
        (make_persistent TxStage.TX_STAGE_WORK N (some a) errno ctorOk).2) ∧
      Event.txFreeCall ∉
        (make_persistent TxStage.TX_STAGE_WORK N (some a) errno ctorOk).2) := by
  constructor
  · intro hall
    have h1 : ctorLoop ctorOk (List.range N) =
        (.ok (), (List.range N).map Event.ctorCall) :=
      ctorLoop_ok _ _ (fun j hj => hall j (List.mem_range.mp hj))
    simp [make_persistent, h1]
  · intro i hi hpre hfail
    have h1 : ctorLoop ctorOk (List.range N) =
        (.error (.ctorException i), (List.range i ++ [i]).map Event.ctorCall) := by
      rw [range_split i N hi]
      exact ctorLoop_fail ctorOk (List.range i) _ i
        (fun j hj => hpre j (List.mem_range.mp hj)) hfail
    have h2 : List.range i ++ [i] = List.range (i + 1) := (List.range_succ i).symm
    have heq : make_persistent TxStage.TX_STAGE_WORK N (some a) errno ctorOk =
        (.error (.ctorException i),
          Event.txAllocCall :: (List.range (i + 1)).map Event.ctorCall) := by
      rw [← h2]
      simp [make_persistent, h1]
    refine ⟨heq, ?_, ?_⟩
    · intro k
      simp [heq]
    · simp [heq]

/-- C3 witness: two elements, the constructor of element 1 throws. -/
theorem make_persistent_ctor_semantics_witness :
    make_persistent TxStage.TX_STAGE_WORK 2 (some 8) 0 (fun j => j == 0) =
      (.error (.ctorException 1),
        [Event.txAllocCall, Event.ctorCall 0, Event.ctorCall 1]) := by
  have h := (make_persistent_ctor_semantics 2 8 0 (fun j => j == 0)).2 1
    (by decide)
    (by
      intro j hj
      have hj0 : j = 0 := by omega
      rw [hj0]
      rfl)
    (by decide)
  rw [h.1]
  rfl

/-- C4: in stage WORK, when the allocator returns a null pointer,
make_persistent throws transaction_out_of_memory when errno is ENOMEM and
transaction_alloc_error otherwise, and runs no constructor. -/
theorem make_persistent_alloc_failure (N errno : Nat) (ctorOk : Nat → Bool) :
    make_persistent TxStage.TX_STAGE_WORK N none errno ctorOk =
      ((if errno = ENOMEM then .error .transaction_out_of_memory
        else .error .transaction_alloc_error), [Event.txAllocCall]) ∧
    ∀ i, Event.ctorCall i ∉
      (make_persistent TxStage.TX_STAGE_WORK N none errno ctorOk).2 := by
  constructor
  · by_cases h : errno = ENOMEM <;> simp [make_persistent, h]
  · intro i
    by_cases h : errno = ENOMEM <;> simp [make_persistent, h]

/-- C5 counterexample: a tagged pointer built from a persistent_ptr<P2> whose
target address has its low bit set (address 3) satisfies is<P1>() and fails
is<P2>(), although it was constructed from kind P2; the claim's alignment
assumption constrains only P1 target addresses, so it does not exclude this
input. -/
theorem tagged_ptr_discrimination_cex :
    tagged_ptr.isP2 (tagged_ptr.fromP2 3) = false ∧
    tagged_ptr.isP1 (tagged_ptr.fromP2 3) = true := by decide

/-- C5 (amended): assuming the target address of the originating
persistent_ptr has its low bit zero for BOTH kinds, a tagged pointer
constructed or assigned from kind P1 satisfies is<P1>() and not is<P2>() and
get<P1>() returns the original address, and symmetrically for kind P2. -/
theorem tagged_ptr_discrimination (a b : Nat) (ha : a % 2 = 0) (hb : b % 2 = 0) :
    tagged_ptr.isP1 (tagged_ptr.fromP1 a) = true ∧
    tagged_ptr.isP2 (tagged_ptr.fromP1 a) = false ∧
    tagged_ptr.getP1 (tagged_ptr.fromP1 a) = a ∧
    tagged_ptr.isP2 (tagged_ptr.fromP2 b) = true ∧
    tagged_ptr.isP1 (tagged_ptr.fromP2 b) = false ∧
    tagged_ptr.getP2 (tagged_ptr.fromP2 b) = b := by
  have h1 : tagged_ptr.add_tag a = a + 1 := lor_one_of_even ha
  refine ⟨?_, ?_, ?_, ?_, ?_, rfl⟩ <;>
    simp [tagged_ptr.isP1, tagged_ptr.isP2, tagged_ptr.is_tagged,
      tagged_ptr.fromP1, tagged_ptr.fromP2, tagged_ptr.getP1, tagged_ptr.getP2,
      tagged_ptr.remove_tag, tagged_ptr.IS_TAGGED, h1, Nat.and_one_is_mod] <;>
    omega

/-- C5 witness: even addresses 4 (kind P1) and 6 (kind P2). -/
theorem tagged_ptr_discrimination_witness :
    tagged_ptr.isP1 (tagged_ptr.fromP1 4) = true ∧
    tagged_ptr.isP2 (tagged_ptr.fromP1 4) = false ∧
    tagged_ptr.getP1 (tagged_ptr.fromP1 4) = 4 ∧
    tagged_ptr.isP2 (tagged_ptr.fromP2 6) = true ∧
    tagged_ptr.isP1 (tagged_ptr.fromP2 6) = false ∧
    tagged_ptr.getP2 (tagged_ptr.fromP2 6) = 6 :=
  tagged_ptr_discrimination 4 6 (by decide) (by decide)

/-- C6 counterexample: a tagged pointer built from a NULL persistent_ptr<P1>
(target address 0) and a default/nullptr-constructed one are both null (both
convert to boolean false), yet they compare unequal under operator==, because
the former stores the discriminator bit (word 1) and the latter stores 0. -/
theorem tagged_ptr_null_eq_cex :
    tagged_ptr.toBool (tagged_ptr.fromP1 0) = false ∧
    tagged_ptr.toBool tagged_ptr.fromNull = false ∧
    tagged_ptr.beq (tagged_ptr.fromP1 0) tagged_ptr.fromNull = false := by decide

/-- C6 (amended): every null tagged pointer (default-constructed,
constructed/assigned from nullptr, or from a null persistent_ptr of either
kind) converts to boolean false; two independently-obtained null tagged
pointers compare equal under operator== when both or neither came from a null
persistent_ptr<P1>, but a P1-obtained null keeps the discriminator bit in its
stored word and compares unequal to the other null forms. -/
theorem tagged_ptr_null_semantics :
    (tagged_ptr.toBool tagged_ptr.fromNull = false ∧
     tagged_ptr.toBool (tagged_ptr.fromP1 0) = false ∧
     tagged_ptr.toBool (tagged_ptr.fromP2 0) = false) ∧
    (tagged_ptr.beq tagged_ptr.fromNull (tagged_ptr.fromP2 0) = true ∧
     tagged_ptr.beq (tagged_ptr.fromP1 0) (tagged_ptr.fromP1 0) = true ∧
     tagged_ptr.beq (tagged_ptr.fromP1 0) tagged_ptr.fromNull = false ∧
     tagged_ptr.beq (tagged_ptr.fromP1 0) (tagged_ptr.fromP2 0) = false) := by
  decide

/-- C7: the non-transactional allocation path performs no stage check: its
behaviour is identical in every stage, it always calls the allocator once,
throws bad_alloc exactly when the allocator call returns nonzero, and never
throws transaction_scope_error. -/
theorem make_persistent_atomic_no_stage_check (stage stage2 : TxStage)
    (ret : Int) :
    make_persistent_atomic stage ret = make_persistent_atomic stage2 ret ∧
    ((make_persistent_atomic stage ret).1 = .error .bad_alloc ↔ ret ≠ 0) ∧
    (make_persistent_atomic stage ret).2 = [Event.atomicAllocCall] ∧
    (make_persistent_atomic stage ret).1 ≠ .error .transaction_scope_error := by
  refine ⟨rfl, ?_, rfl, ?_⟩ <;>
    by_cases h : ret = 0 <;> simp [make_persistent_atomic, h]

/-- C8: delete_persistent_atomic never calls a destructor and never throws
(its result type carries no exception); it is a no-op on a null pointer, and
on a non-null pointer its only collaborator call is the non-transactional
free. -/
theorem delete_persistent_atomic_semantics (ptr : Option Nat) :
    delete_persistent_atomic ptr =
      ((), if ptr.isSome then [Event.atomicFreeCall] else []) ∧
    (∀ k, Event.dtorCall k ∉ (delete_persistent_atomic ptr).2) := by
  cases ptr <;> simp [delete_persistent_atomic]

/-- C9: wait_until_impl hands the native timed wait the caller's deadline
re-based into the native clock domain, namely my_now + (abs_timeout -
their_now) with both nows taken at call time, and maps the native status to
no_timeout on 0, timeout on ETIMEDOUT, and a lock_error exception otherwise. -/
theorem wait_until_impl_semantics (theirNow myNow absTimeout : Int)
    (ret : Nat) :
    (wait_until_impl theirNow myNow absTimeout ret).2 =
      [myNow + (absTimeout - theirNow)] ∧
    ((wait_until_impl theirNow myNow absTimeout ret).1 = .ok .no_timeout ↔
      ret = 0) ∧
    ((wait_until_impl theirNow myNow absTimeout ret).1 = .ok .timeout ↔
      ret = ETIMEDOUT) ∧
    ((wait_until_impl theirNow myNow absTimeout ret).1 = .error .lock_error ↔
      (ret ≠ 0 ∧ ret ≠ ETIMEDOUT)) := by
  refine ⟨rfl, ?_, ?_, ?_⟩ <;>
    by_cases h0 : ret = 0 <;> by_cases ht : ret = ETIMEDOUT <;>
    simp_all [wait_until_impl, ETIMEDOUT]

/-- C10: unlock_shared is behaviourally identical to unlock: it performs the
same single native unlock call and throws lock_error exactly when the native
unlock reports failure, exactly as unlock does. -/
theorem unlock_shared_refines_unlock (ret : Nat) :
    shared_mutex.unlock_shared ret = shared_mutex.unlock ret ∧
    ((shared_mutex.unlock_shared ret).1 = .error .lock_error ↔ ret ≠ 0) ∧
    (shared_mutex.unlock_shared ret).2 = [Event.rwlockUnlockCall] := by
  refine ⟨rfl, ?_, rfl⟩
  by_cases h : ret = 0 <;>
    simp [shared_mutex.unlock_shared, shared_mutex.unlock, h]

end PmemObjCpp
